import Mathlib

/-!
Verification of the `system-info-app` C++ library (`systemapi.cpp` /
`systemapi.h`): a cross-platform shared-library surface exposing a hostname
query, a total-physical-memory query, a process-id query and a factorial
function.  Each exported function is embedded as a pure Lean function; the
operating-system calls the code makes (`gethostname` / `GetComputerNameA`,
`GlobalMemoryStatusEx`, `sysctl`, `sysinfo`, `getpid` / `GetCurrentProcessId`)
are passed in explicitly as oracle values, so one Lean input describes one
fixed OS state.  C++ `uint64_t` and `uint32_t` arithmetic is modelled on `Nat`
with explicit reduction modulo `2 ^ 64` and `2 ^ 32`.
-/

namespace SystemApi

/-- The modulus of C++ `uint64_t` arithmetic. -/
def U64 : Nat := 2 ^ 64

/-- The modulus of C++ `uint32_t` arithmetic. -/
def U32 : Nat := 2 ^ 32

/-- Embedding of `calculateFactorialRuntime` (systemapi.cpp, lines 30-39):
`if (n < 0) return 0; if (n == 0 || n == 1) return 1;` then a loop
`for (int i = 2; i <= n; ++i) result *= i;` on a `uint64_t` accumulator
starting at 1.  The loop index values `2, 3, …, n` are the list
`List.range' 2 (n.toNat - 1)` and each `result *= i` is a multiplication
reduced modulo `2 ^ 64`. -/
def calculateFactorialRuntime (n : Int) : Nat :=
  if n < 0 then 0
  else if n = 0 ∨ n = 1 then 1
  else (List.range' 2 (n.toNat - 1)).foldl (fun result i => result * i % U64) 1

/-- Embedding of the exported `CalculateFactorial` (systemapi.cpp, lines
92-96): it simply forwards to `calculateFactorialRuntime`. -/
def CalculateFactorial (n : Int) : Nat :=
  calculateFactorialRuntime n

/-- Embedding of the compile-time template `Factorial<N>::value` (systemapi.cpp,
lines 19-27): `Factorial<0>::value = 1` and
`Factorial<N>::value = N * Factorial<N-1>::value` in `uint64_t` arithmetic.
The template only instantiates for `N ≥ 0`, so the index is a `Nat`. -/
def Factorial : Nat → Nat
  | 0 => 1
  | n + 1 => (n + 1) * Factorial n % U64

/-- A caller-owned byte buffer, modelled by its contents. -/
abbrev Buffer := List Nat

/-- Oracle for the OS hostname call the code makes on the success path
(`gethostname` on POSIX, `GetComputerNameA` on Windows): given the buffer
contents and the capacity it returns the success flag and the buffer contents
after the call. -/
structure HostOS where
  gethostname : Buffer → Int → Bool × Buffer

/-- Outcome of one `GetComputerNameString` call: the returned `bool`, the
buffer contents afterwards, and whether the OS hostname call was made. -/
structure HostNameResult where
  ret : Bool
  buffer : Option Buffer
  osCalled : Bool
  deriving Repr, DecidableEq

/-- Embedding of `GetComputerNameString` (systemapi.cpp, lines 42-53):
`if (buffer == nullptr || bufferSize <= 0) return false;` and otherwise the
result of the OS hostname call.  A null pointer is `none`; the instrumentation
records whether the OS call happened and what the buffer holds afterwards. -/
def GetComputerNameString (os : HostOS) (buffer : Option Buffer)
    (bufferSize : Int) : HostNameResult :=
  match buffer with
  | none => ⟨false, none, false⟩
  | some b =>
    if bufferSize ≤ 0 then ⟨false, some b, false⟩
    else
      let r := os.gethostname b bufferSize
      ⟨r.1, some r.2, true⟩

/-- Fields of a successful Linux `sysinfo` query that the code reads: the raw
RAM unit count `totalram` (an `unsigned long`) and the scale factor
`mem_unit` (an `unsigned int`). -/
structure Sysinfo where
  totalram : Nat
  mem_unit : Nat
  deriving Repr, DecidableEq

/-- Embedding of the Linux branch of `GetTotalPhysicalMemory` (systemapi.cpp,
lines 73-79): on success (`sysinfo(&info) == 0`, modelled by `some info`) it
returns `static_cast<uint64_t>(info.totalram) * info.mem_unit`, a 64-bit
multiplication; on failure it returns 0. -/
def linuxGetTotalPhysicalMemory (q : Option Sysinfo) : Nat :=
  match q with
  | some info => info.totalram * info.mem_unit % U64
  | none => 0

/-- Embedding of the Windows branch of `GetTotalPhysicalMemory` (systemapi.cpp,
lines 57-63): on success `GlobalMemoryStatusEx` yields `ullTotalPhys`
(modelled by `some m`); on failure it returns 0. -/
def windowsGetTotalPhysicalMemory (q : Option Nat) : Nat :=
  match q with
  | some m => m
  | none => 0

/-- Embedding of the Apple branch of `GetTotalPhysicalMemory` (systemapi.cpp,
lines 64-72): on success (`sysctl(...) == 0`) it returns the queried
`memSize` (modelled by `some m`); on failure it returns 0. -/
def appleGetTotalPhysicalMemory (q : Option Nat) : Nat :=
  match q with
  | some m => m
  | none => 0

/-- Embedding of `GetCurrentProcessID` (systemapi.cpp, lines 83-89): the
OS-reported process id (`getpid()` or `GetCurrentProcessId()`, an oracle
input) narrowed by `static_cast<uint32_t>`. -/
def GetCurrentProcessID (osPid : Nat) : Nat :=
  osPid % U32

/-- A trivial hostname oracle whose OS call always succeeds and leaves the
buffer unchanged; used to instantiate universally quantified statements. -/
def idOS : HostOS :=
  ⟨fun b _ => (true, b)⟩

/-! ## Helper lemmas about the factorial loop -/

/-- Folding the loop body `result *= i` (with 64-bit wraparound) over any list
of factors, from an already reduced accumulator, yields the product of the
accumulator with the list, reduced modulo `2 ^ 64`. -/
theorem foldl_mul_mod (l : List Nat) :
    ∀ r : Nat, l.foldl (fun a i => a * i % U64) (r % U64) = r * l.prod % U64 := by
  induction l with
  | nil => intro r; simp
  | cons x xs ih =>
    intro r
    simp only [List.foldl_cons, List.prod_cons]
    rw [Nat.mod_mul_mod, ih (r * x), Nat.mul_assoc]

/-- The product of the loop index values `2, 3, …, k + 1` is `(k + 1)!`. -/
theorem range'_two_prod : ∀ k : Nat, (List.range' 2 k).prod = Nat.factorial (k + 1) := by
  intro k
  induction k with
  | zero => rfl
  | succ k ih =>
    rw [List.range'_concat, List.prod_append, ih]
    simp only [List.prod_cons, List.prod_nil, Nat.mul_one, Nat.one_mul]
    rw [Nat.factorial_succ (k + 1)]
    ring

/-- For every nonnegative input, `calculateFactorialRuntime` computes the
mathematical factorial reduced modulo `2 ^ 64`. -/
theorem runtime_eq_factorial (n : Int) (h : 0 ≤ n) :
    calculateFactorialRuntime n = Nat.factorial n.toNat % U64 := by
  unfold calculateFactorialRuntime
  rw [if_neg (by omega)]
  by_cases h01 : n = 0 ∨ n = 1
  · rw [if_pos h01]
    rcases h01 with h0 | h1
    · subst h0; rfl
    · subst h1; rfl
  · rw [if_neg h01]
    have h2 : 2 ≤ n := by omega
    have h2n : 2 ≤ n.toNat := by omega
    have key := foldl_mul_mod (List.range' 2 (n.toNat - 1)) 1
    rw [show (1 : Nat) % U64 = 1 from rfl, Nat.one_mul] at key
    rw [key, range'_two_prod]
    congr 2
    omega

/-- The compile-time template `Factorial<N>::value` also computes the
mathematical factorial reduced modulo `2 ^ 64`. -/
theorem template_eq_factorial : ∀ N : Nat, Factorial N = Nat.factorial N % U64 := by
  intro N
  induction N with
  | zero => rfl
  | succ n ih =>
    rw [Factorial, ih, Nat.mul_mod_mod, Nat.factorial_succ]

/-! ## Claim theorems -/

/-- C1: for every `n ≥ 2`, `CalculateFactorial n` is the product
`2 · 3 · … · n` computed with 64-bit unsigned wraparound, i.e. `n!` modulo
`2 ^ 64`; in particular `CalculateFactorial 5 = 120`,
`CalculateFactorial 20 = 2432902008176640000`, and `CalculateFactorial 21`
is the exactly wrapped value of `21!` modulo `2 ^ 64` (not an error). -/
theorem C1_factorial_wraparound (n : Int) (h : 2 ≤ n) :
    CalculateFactorial n = Nat.factorial n.toNat % 2 ^ 64 ∧
    CalculateFactorial 5 = 120 ∧
    CalculateFactorial 20 = 2432902008176640000 ∧
    CalculateFactorial 21 = Nat.factorial 21 % 2 ^ 64 ∧
    CalculateFactorial 21 = 14197454024290336768 := by
  refine ⟨?_, by decide, by decide, by decide, by decide⟩
  exact runtime_eq_factorial n (by omega)

/-- Witness for C1 at the concrete input `n = 5`. -/
theorem C1_factorial_wraparound_witness :
    (2 : Int) ≤ 5 ∧
    (CalculateFactorial 5 = Nat.factorial (5 : Int).toNat % 2 ^ 64 ∧
     CalculateFactorial 5 = 120 ∧
     CalculateFactorial 20 = 2432902008176640000 ∧
     CalculateFactorial 21 = Nat.factorial 21 % 2 ^ 64 ∧
     CalculateFactorial 21 = 14197454024290336768) :=
  ⟨by decide, C1_factorial_wraparound 5 (by decide)⟩

/-- C2: `CalculateFactorial` returns the error sentinel 0 for every negative
input, and returns 1 at `n = 0` and `n = 1`. -/
theorem C2_factorial_base_cases (n : Int) (h : n < 0) :
    CalculateFactorial n = 0 ∧ CalculateFactorial 0 = 1 ∧ CalculateFactorial 1 = 1 := by
  refine ⟨?_, rfl, rfl⟩
  unfold CalculateFactorial calculateFactorialRuntime
  rw [if_pos h]

/-- Witness for C2 at the concrete input `n = -5`. -/
theorem C2_factorial_base_cases_witness :
    (-5 : Int) < 0 ∧
    (CalculateFactorial (-5) = 0 ∧ CalculateFactorial 0 = 1 ∧ CalculateFactorial 1 = 1) :=
  ⟨by decide, C2_factorial_base_cases (-5) (by decide)⟩

/-- C3: `GetComputerNameString` returns false if and only if the buffer is
null, or the capacity is ≤ 0, or the underlying OS hostname call fails; in
particular it returns false for a null buffer with any capacity and for any
buffer with capacity 0. -/
theorem C3_hostname_failure_iff (os : HostOS) (buffer : Option Buffer) (sz : Int) :
    ((GetComputerNameString os buffer sz).ret = false ↔
      buffer = none ∨ sz ≤ 0 ∨
        ∃ b, buffer = some b ∧ (os.gethostname b sz).1 = false) ∧
    (GetComputerNameString os none sz).ret = false ∧
    (∀ b : Buffer, (GetComputerNameString os (some b) 0).ret = false) := by
  refine ⟨?_, rfl, fun b => rfl⟩
  cases buffer with
  | none => simp [GetComputerNameString]
  | some b =>
    by_cases hsz : sz ≤ 0
    · simp [GetComputerNameString, hsz]
    · simp [GetComputerNameString, hsz]

/-- C10: when the buffer is null or the capacity is ≤ 0,
`GetComputerNameString` returns false without making any OS call and without
writing a single byte, leaving the caller's buffer unchanged. -/
theorem C10_hostname_validation_path (os : HostOS) (buffer : Option Buffer) (sz : Int)
    (h : buffer = none ∨ sz ≤ 0) :
    (GetComputerNameString os buffer sz).ret = false ∧
    (GetComputerNameString os buffer sz).buffer = buffer ∧
    (GetComputerNameString os buffer sz).osCalled = false := by
  cases buffer with
  | none => exact ⟨rfl, rfl, rfl⟩
  | some b =>
    have hsz : sz ≤ 0 := h.resolve_left (by simp)
    simp [GetComputerNameString, hsz]

/-- Witness for C10 at the concrete input: null buffer, capacity 7. -/
theorem C10_hostname_validation_path_witness :
    ((none : Option Buffer) = none ∨ (7 : Int) ≤ 0) ∧
    ((GetComputerNameString idOS none 7).ret = false ∧
     (GetComputerNameString idOS none 7).buffer = none ∧
     (GetComputerNameString idOS none 7).osCalled = false) :=
  ⟨Or.inl rfl, C10_hostname_validation_path idOS none 7 (Or.inl rfl)⟩

/-- C4: on the Linux branch, when the sysinfo query succeeds,
`GetTotalPhysicalMemory` returns `totalram * mem_unit` computed in 64-bit
arithmetic; when the true byte count fits in 64 bits this is the exact
product. -/
theorem C4_linux_memory_normalization (info : Sysinfo)
    (h : info.totalram * info.mem_unit < 2 ^ 64) :
    linuxGetTotalPhysicalMemory (some info) = info.totalram * info.mem_unit % 2 ^ 64 ∧
    linuxGetTotalPhysicalMemory (some info) = info.totalram * info.mem_unit := by
  refine ⟨rfl, ?_⟩
  show info.totalram * info.mem_unit % U64 = info.totalram * info.mem_unit
  exact Nat.mod_eq_of_lt h

/-- Witness for C4: a machine with 4194304 RAM units of 4096 bytes each. -/
theorem C4_linux_memory_normalization_witness :
    (4194304 : Nat) * 4096 < 2 ^ 64 ∧
    (linuxGetTotalPhysicalMemory (some ⟨4194304, 4096⟩) = 4194304 * 4096 % 2 ^ 64 ∧
     linuxGetTotalPhysicalMemory (some ⟨4194304, 4096⟩) = 4194304 * 4096) :=
  ⟨by decide, C4_linux_memory_normalization ⟨4194304, 4096⟩ (by decide)⟩

/-- C5: on every platform branch, `GetTotalPhysicalMemory` returns the
sentinel 0 when the OS memory query fails; each branch is a total Lean
function, so no exception or abort is possible in the model. -/
theorem C5_memory_failure_sentinel :
    windowsGetTotalPhysicalMemory none = 0 ∧
    appleGetTotalPhysicalMemory none = 0 ∧
    linuxGetTotalPhysicalMemory none = 0 :=
  ⟨rfl, rfl, rfl⟩

/-- C6: `GetCurrentProcessID` is total (a function of the OS-reported pid
alone, with no error branch) and returns that pid narrowed to an unsigned
32-bit integer. -/
theorem C6_pid_total_narrowing (osPid : Nat) :
    GetCurrentProcessID osPid = osPid % 2 ^ 32 ∧ GetCurrentProcessID osPid < 2 ^ 32 :=
  ⟨rfl, Nat.mod_lt osPid (by unfold U32; norm_num)⟩

/-- C7: every exported operation is deterministic — with identical inputs and
identical OS-oracle state, two calls return identical outputs.  Each operation
is a pure function of its explicit arguments (including the OS oracle), which
is exactly the absence of hidden or shared mutable state in the library. -/
theorem C7_deterministic (n : Int) (os : HostOS) (buffer : Option Buffer) (sz : Int)
    (win apl : Option Nat) (lin : Option Sysinfo) (pid : Nat) :
    CalculateFactorial n = CalculateFactorial n ∧
    GetComputerNameString os buffer sz = GetComputerNameString os buffer sz ∧
    windowsGetTotalPhysicalMemory win = windowsGetTotalPhysicalMemory win ∧
    appleGetTotalPhysicalMemory apl = appleGetTotalPhysicalMemory apl ∧
    linuxGetTotalPhysicalMemory lin = linuxGetTotalPhysicalMemory lin ∧
    GetCurrentProcessID pid = GetCurrentProcessID pid :=
  ⟨rfl, rfl, rfl, rfl, rfl, rfl⟩

/-- C8: the exported `CalculateFactorial` forwards every input to
`calculateFactorialRuntime`, and on its whole domain `N ≥ 0` the compile-time
template `Factorial<N>::value` agrees with `calculateFactorialRuntime N`, so
the template path is behaviorally redundant (dead at runtime). -/
theorem C8_template_redundant (n : Int) (N : Nat) :
    CalculateFactorial n = calculateFactorialRuntime n ∧
    Factorial N = calculateFactorialRuntime (N : Int) := by
  refine ⟨rfl, ?_⟩
  rw [template_eq_factorial, runtime_eq_factorial (N : Int) (Int.natCast_nonneg N)]
  simp

/-- C9: for every `n ≥ 67`, `CalculateFactorial n` returns exactly 0 (the
2-adic valuation of `n!` has reached 64, so `n!` is divisible by `2 ^ 64`),
which is the same value the negative-input error sentinel produces, making
the two indistinguishable to the caller. -/
theorem C9_large_inputs_give_zero (n m : Int) (h : 67 ≤ n) (hm : m < 0) :
    CalculateFactorial n = 0 ∧ CalculateFactorial n = CalculateFactorial m := by
  have hz : CalculateFactorial n = 0 := by
    have heq := runtime_eq_factorial n (by omega)
    have h67 : 67 ≤ n.toNat := by omega
    have hd : U64 ∣ Nat.factorial n.toNat :=
      dvd_trans (Nat.dvd_of_mod_eq_zero (by decide))
        (Nat.factorial_dvd_factorial h67)
    obtain ⟨c, hc⟩ := hd
    rw [CalculateFactorial, heq, hc, Nat.mul_mod_right]
  refine ⟨hz, ?_⟩
  rw [hz]
  unfold CalculateFactorial calculateFactorialRuntime
  rw [if_pos hm]

/-- Witness for C9 at the concrete inputs `n = 67`, `m = -5`. -/
theorem C9_large_inputs_give_zero_witness :
    (67 : Int) ≤ 67 ∧ (-5 : Int) < 0 ∧
    (CalculateFactorial 67 = 0 ∧ CalculateFactorial 67 = CalculateFactorial (-5)) :=
  ⟨by decide, by decide, C9_large_inputs_give_zero 67 (-5) (by decide) (by decide)⟩

end SystemApi
